import Mathlib

/-!
Shallow embedding of `run.py` from the ETH-wallet-historical-balances
repository: a script that reconstructs historical Ethereum / ERC-20 token
balances and writes a CSV report.

Network responses are modelled as explicit JSON values (`JVal`) passed to
each fetch function; Python exceptions are modelled with `Except PyErr`;
Python float division by `10**18` is modelled as exact division in `ℚ`.
-/

/-- A parsed JSON value, as produced by `response.json()` in run.py.
The script never receives fractional JSON numbers on the fields it reads
(all amounts arrive as decimal or hex strings), so numbers are `Int`. -/
inductive JVal where
  | null : JVal
  | b : Bool → JVal
  | i : Int → JVal
  | s : String → JVal
  | arr : List JVal → JVal
  | obj : List (String × JVal) → JVal
deriving Repr

/-- The Python exceptions the script can raise while parsing a response. -/
inductive PyErr where
  | attributeError : PyErr
  | typeError : PyErr
  | valueError : PyErr
  | keyError : PyErr
  | indexError : PyErr
deriving DecidableEq, Repr

/-- Key lookup in a JSON object (Python dict preserves one value per key). -/
def jlookup (m : List (String × JVal)) (k : String) : Option JVal :=
  (m.find? (fun p => p.1 == k)).map (fun p => p.2)

/-- Python `d.get(k, default)`: raises AttributeError unless `d` is a dict. -/
def dictGet (j : JVal) (k : String) (d : JVal) : Except PyErr JVal :=
  match j with
  | .obj m => .ok ((jlookup m k).getD d)
  | _ => .error .attributeError

/-- Python `d.get(k)` with implicit `None` default (JSON `null` models `None`). -/
def dictGetOpt (j : JVal) (k : String) : Except PyErr JVal :=
  dictGet j k .null

/-- Python subscripting `tx[k]` on a parsed JSON value. -/
def jIndexStr (j : JVal) (k : String) : Except PyErr JVal :=
  match j with
  | .obj m =>
    match jlookup m k with
    | some v => .ok v
    | none => .error .keyError
  | _ => .error .typeError

/-- Python truthiness of a parsed JSON value. -/
def pyTruthy : JVal → Bool
  | .null => false
  | .b v => v
  | .i n => n != 0
  | .s st => st != ""
  | .arr l => !l.isEmpty
  | .obj m => !m.isEmpty

/-- Digits of a decimal literal folded to a `Nat`. -/
def decDigits (ds : List Char) : Option Nat :=
  if ds.isEmpty then none
  else if ds.all Char.isDigit then
    some (ds.foldl (fun a c => 10 * a + (c.toNat - 48)) 0)
  else none

/-- Characters of a string with surrounding whitespace stripped, as Python
`int()` does before parsing. -/
def pyStrip (st : String) : List Char :=
  ((st.toList.dropWhile Char.isWhitespace).reverse.dropWhile Char.isWhitespace).reverse

/-- Parse the argument of Python `int(str)`: optional sign, digits. -/
def parseDecInt (st : String) : Option Int :=
  match pyStrip st with
  | [] => none
  | '-' :: ds => (decDigits ds).map (fun n => -(n : Int))
  | '+' :: ds => (decDigits ds).map (fun n => (n : Int))
  | ds => (decDigits ds).map (fun n => (n : Int))

/-- Python `int(x)` on a parsed JSON value. -/
def pyInt (v : JVal) : Except PyErr Int :=
  match v with
  | .i n => .ok n
  | .b true => .ok 1
  | .b false => .ok 0
  | .s st =>
    match parseDecInt st with
    | some n => .ok n
    | none => .error .valueError
  | _ => .error .typeError

/-- Value of one hexadecimal digit, upper or lower case. -/
def hexDigitVal (c : Char) : Option Nat :=
  if c.isDigit then some (c.toNat - 48)
  else if 'a' ≤ c ∧ c ≤ 'f' then some (c.toNat - 87)
  else if 'A' ≤ c ∧ c ≤ 'F' then some (c.toNat - 55)
  else none

/-- Digits of a hexadecimal literal folded to a `Nat`. -/
def hexDigits (ds : List Char) : Option Nat :=
  if ds.isEmpty then none
  else ds.foldl (fun a c => a.bind (fun n => (hexDigitVal c).map (fun d => 16 * n + d))) (some 0)

/-- Hexadecimal digits with an optional `0x` / `0X` marker in front. -/
def hexBody (ds : List Char) : Option Nat :=
  match ds with
  | '0' :: 'x' :: rest => hexDigits rest
  | '0' :: 'X' :: rest => hexDigits rest
  | _ => hexDigits ds

/-- Parse the argument of Python `int(str, 16)`. -/
def parseHexInt (st : String) : Option Int :=
  match pyStrip st with
  | [] => none
  | '-' :: ds => (hexBody ds).map (fun n => -(n : Int))
  | '+' :: ds => (hexBody ds).map (fun n => (n : Int))
  | ds => (hexBody ds).map (fun n => (n : Int))

/-- Python `int(x, 16)`: a non-string argument with an explicit base raises. -/
def pyIntHex (v : JVal) : Except PyErr Int :=
  match v with
  | .s st =>
    match parseHexInt st with
    | some n => .ok n
    | none => .error .valueError
  | _ => .error .typeError

/-- Python iteration `for tx in v`: lists yield elements, strings yield
one-character strings, dicts yield their keys; other values raise. -/
def iterElems (v : JVal) : Except PyErr (List JVal) :=
  match v with
  | .arr l => .ok l
  | .s st => .ok (st.toList.map (fun c => .s c.toString))
  | .obj m => .ok (m.map (fun p => .s p.1))
  | _ => .error .typeError

/-- Proleptic-Gregorian civil date from days since the UNIX epoch
(the standard era-based conversion used by `datetime.utcfromtimestamp`). -/
def civilFromDays (z0 : Int) : Int × Nat × Nat :=
  let z : Int := z0 + 719468
  let era : Int := z.ediv 146097
  let doe : Nat := (z.emod 146097).toNat
  let yoe : Nat := (doe - doe / 1460 + doe / 36524 - doe / 146096) / 365
  let doy : Nat := doe - (365 * yoe + yoe / 4 - yoe / 100)
  let mp : Nat := (5 * doy + 2) / 153
  let d : Nat := doy - (153 * mp + 2) / 5 + 1
  let m : Nat := if mp < 10 then mp + 3 else mp - 9
  let y : Int := (yoe : Int) + era * 400 + (if m ≤ 2 then 1 else 0)
  (y, m, d)

/-- Zero-padded decimal rendering, as produced by strftime field widths. -/
def padNum (width n : Nat) : String :=
  let t := toString n
  if t.length < width then String.mk (List.replicate (width - t.length) '0') ++ t else t

/-- `strftime('%Y-%m-%d')` on a civil date. -/
def formatCivil (ymd : Int × Nat × Nat) : String :=
  padNum 4 ymd.1.toNat ++ "-" ++ padNum 2 ymd.2.1 ++ "-" ++ padNum 2 ymd.2.2

/-- UTC calendar date string of a UNIX timestamp. -/
def dateStrOfTimestamp (t : Int) : String :=
  formatCivil (civilFromDays (t.ediv 86400))

/-- `datetime.utcfromtimestamp(t).strftime('%Y-%m-%d')`: timestamps outside
the representable year range 1..9999 raise in Python. -/
def utcDateStr (t : Int) : Except PyErr String :=
  if t < -62135596800 ∨ 253402300799 < t then .error .valueError
  else .ok (dateStrOfTimestamp t)

/-- `block_to_date` from run.py, applied to the parsed explorer response:
`response.json().get('result', {}).get('timeStamp', 0)`, then
`datetime.utcfromtimestamp(int(timestamp)).strftime('%Y-%m-%d')`. -/
def block_to_date (resp : JVal) : Except PyErr String := do
  let r ← dictGet resp "result" (.obj [])
  let ts ← dictGet r "timeStamp" (.i 0)
  let t ← pyInt ts
  utcDateStr t

/-- `get_eth_balance` from run.py, applied to the parsed Infura response:
`result = response.json().get('result')`; a truthy result is parsed with
`int(result, 16)` and scaled by `10**18`, otherwise the balance is 0. -/
def get_eth_balance (resp : JVal) : Except PyErr ℚ := do
  let result ← dictGetOpt resp "result"
  if pyTruthy result then
    let n ← pyIntHex result
    pure ((n : ℚ) / 10 ^ 18)
  else
    pure 0

/-- Python `address.lower()` restricted to the ASCII strings the script
compares (structural recursion over the characters). -/
def pyLower (st : String) : String :=
  String.mk (st.toList.map Char.toLower)

/-- A token-transfer record as consumed by the reconstruction loop of
`reconstruct_erc20_balance` (fields `tokenSymbol`, `from`, `to`, `value`; `from` and `to` are Lean
keywords, so the fields are named `fr` and `toAddr`). -/
structure TokenTx where
  tokenSymbol : String
  fr : String
  toAddr : String
  value : Int
deriving DecidableEq, Repr

/-- An internal-transaction record as consumed by the reconstruction loop
(`contractAddress` may be absent, matching the `'contractAddress' in tx`
guard in run.py). -/
structure InternalTx where
  contractAddress : Option String
  type : String
  fr : String
  toAddr : String
  value : Int
deriving DecidableEq, Repr

/-- One iteration of the token-transfer loop in `reconstruct_erc20_balance`:
`if tx['tokenSymbol'] == symbol: if tx['to'] == address.lower(): balance -= value
elif tx['from'] == address.lower(): balance += value`. -/
def token_step (address symbol : String) (balance : Int) (tx : TokenTx) : Int :=
  if tx.tokenSymbol == symbol then
    if tx.toAddr == pyLower address then balance - tx.value
    else if tx.fr == pyLower address then balance + tx.value
    else balance
  else balance

/-- One iteration of the internal-transaction loop in
`reconstruct_erc20_balance`: the record must carry a `contractAddress` equal
to the queried contract and have type `"call"`. -/
def internal_step (address contract : String) (balance : Int) (tx : InternalTx) : Int :=
  if tx.contractAddress == some contract then
    if tx.type == "call" then
      if tx.toAddr == pyLower address then balance - tx.value
      else if tx.fr == pyLower address then balance + tx.value
      else balance
    else balance
  else balance

/-- The two reconstruction loops of `reconstruct_erc20_balance` (run.py
lines 150-164), starting from the fetched current balance. -/
def reconstruct_loops (address contract symbol : String) (current_balance : Int)
    (token_transfers : List TokenTx) (internal_transfers : List InternalTx) : Int :=
  internal_transfers.foldl (internal_step address contract)
    (token_transfers.foldl (token_step address symbol) current_balance)

/-- `reconstruct_erc20_balance` at the record level: the loop result scaled
by `10**18` (run.py line 166). -/
def reconstruct_balance (address contract symbol : String) (current_balance : Int)
    (token_transfers : List TokenTx) (internal_transfers : List InternalTx) : ℚ :=
  ((reconstruct_loops address contract symbol current_balance
      token_transfers internal_transfers : Int) : ℚ) / 10 ^ 18

/-- A token-transfer record receiving at the queried address, in the sense
run.py tests it: its `to` field equals the lowercased queried address. -/
def token_incoming (address symbol : String) (tx : TokenTx) : Bool :=
  tx.tokenSymbol == symbol && tx.toAddr == pyLower address

/-- A token-transfer record sending from the queried address, in the sense
run.py tests it (reached only when the receiving test fails). -/
def token_outgoing (address symbol : String) (tx : TokenTx) : Bool :=
  tx.tokenSymbol == symbol && !(tx.toAddr == pyLower address) && tx.fr == pyLower address

/-- A matching internal-transaction record receiving at the queried address. -/
def internal_incoming (address contract : String) (tx : InternalTx) : Bool :=
  tx.contractAddress == some contract && tx.type == "call" && tx.toAddr == pyLower address

/-- A matching internal-transaction record sending from the queried address
(reached only when the receiving test fails). -/
def internal_outgoing (address contract : String) (tx : InternalTx) : Bool :=
  tx.contractAddress == some contract && tx.type == "call" &&
    !(tx.toAddr == pyLower address) && tx.fr == pyLower address

/-- The balance formula claimed by the specification, read literally:
current balance minus the values of all matching records whose receiver is
the queried address plus the values of all matching records whose sender is
the queried address, the two sides tested independently. -/
def spec_claimed_balance (address contract symbol : String) (current_balance : Int)
    (token_transfers : List TokenTx) (internal_transfers : List InternalTx) : ℚ :=
  ((current_balance
    - ((token_transfers.filter (token_incoming address symbol)).map TokenTx.value).sum
    + ((token_transfers.filter
        (fun tx => tx.tokenSymbol == symbol && tx.fr == pyLower address)).map TokenTx.value).sum
    - ((internal_transfers.filter (internal_incoming address contract)).map InternalTx.value).sum
    + ((internal_transfers.filter
        (fun tx => tx.contractAddress == some contract && tx.type == "call" &&
          tx.fr == pyLower address)).map InternalTx.value).sum : Int) : ℚ) / 10 ^ 18

/-- The token-transfer loop adds the values sent by the queried address and
subtracts the values received by it, with the sender branch reached only
when the receiver test fails. -/
lemma foldl_token_step (address symbol : String) :
    ∀ (l : List TokenTx) (c : Int),
      l.foldl (token_step address symbol) c =
        c - ((l.filter (token_incoming address symbol)).map TokenTx.value).sum
          + ((l.filter (token_outgoing address symbol)).map TokenTx.value).sum := by
  intro l
  induction l with
  | nil => intro c; simp
  | cons tx tl ih =>
    intro c
    simp only [List.foldl_cons, List.filter_cons, ih]
    by_cases h1 : (tx.tokenSymbol == symbol) = true
    · by_cases h2 : (tx.toAddr == pyLower address) = true
      · simp [token_step, token_incoming, token_outgoing, h1, h2]
        omega
      · by_cases h3 : (tx.fr == pyLower address) = true
        · simp [token_step, token_incoming, token_outgoing, h1, h2, h3]
          omega
        · simp [token_step, token_incoming, token_outgoing, h1, h2, h3]
    · simp [token_step, token_incoming, token_outgoing, h1]

/-- The internal-transaction loop adds the values sent by the queried
address and subtracts the values received by it, over the records that
carry the queried contract address and have type `"call"`. -/
lemma foldl_internal_step (address contract : String) :
    ∀ (l : List InternalTx) (c : Int),
      l.foldl (internal_step address contract) c =
        c - ((l.filter (internal_incoming address contract)).map InternalTx.value).sum
          + ((l.filter (internal_outgoing address contract)).map InternalTx.value).sum := by
  intro l
  induction l with
  | nil => intro c; simp
  | cons tx tl ih =>
    intro c
    simp only [List.foldl_cons, List.filter_cons, ih]
    by_cases h1 : (tx.contractAddress == some contract) = true
    · by_cases h0 : (tx.type == "call") = true
      · by_cases h2 : (tx.toAddr == pyLower address) = true
        · simp [internal_step, internal_incoming, internal_outgoing, h1, h0, h2]
          omega
        · by_cases h3 : (tx.fr == pyLower address) = true
          · simp [internal_step, internal_incoming, internal_outgoing, h1, h0, h2, h3]
            omega
          · simp [internal_step, internal_incoming, internal_outgoing, h1, h0, h2, h3]
      · simp [internal_step, internal_incoming, internal_outgoing, h1, h0]
    · simp [internal_step, internal_incoming, internal_outgoing, h1]

/-- C1 (amended): `reconstruct_erc20_balance` returns the current balance
minus the values of matching records received by the queried address plus
the values of matching records sent by it and not also received by it (the
sender branch is an elif, so a self-transfer is only subtracted), scaled by
`10^-18`; on the spec's concrete example the pre-scaling result is 80. -/
theorem reconstruct_balance_sum_decomposition
    (address contract symbol : String) (current_balance : Int)
    (token_transfers : List TokenTx) (internal_transfers : List InternalTx) :
    reconstruct_balance address contract symbol current_balance
        token_transfers internal_transfers =
      ((current_balance
        - ((token_transfers.filter (token_incoming address symbol)).map TokenTx.value).sum
        + ((token_transfers.filter (token_outgoing address symbol)).map TokenTx.value).sum
        - ((internal_transfers.filter (internal_incoming address contract)).map
            InternalTx.value).sum
        + ((internal_transfers.filter (internal_outgoing address contract)).map
            InternalTx.value).sum : Int) : ℚ) / 10 ^ 18
    ∧ reconstruct_loops "0xa" "0xc" "T" 100
        [⟨"T", "0xb", "0xa", 30⟩, ⟨"T", "0xa", "0xb", 10⟩] [] = 80 := by
  constructor
  · unfold reconstruct_balance reconstruct_loops
    rw [foldl_token_step, foldl_internal_step]
  · decide

/-- C1 counterexample: on a self-transfer record (sender and receiver both
the queried address) the code subtracts the value once, while the claimed
independent-sums formula cancels it, so the two differ. -/
theorem reconstruct_self_transfer_counterexample :
    reconstruct_balance "0xa" "0xc" "T" 100 [⟨"T", "0xa", "0xa", 30⟩] [] ≠
      spec_claimed_balance "0xa" "0xc" "T" 100 [⟨"T", "0xa", "0xa", 30⟩] [] := by
  have h1 : reconstruct_balance "0xa" "0xc" "T" 100 [⟨"T", "0xa", "0xa", 30⟩] [] =
      ((70 : Int) : ℚ) / 10 ^ 18 := rfl
  have h2 : spec_claimed_balance "0xa" "0xc" "T" 100 [⟨"T", "0xa", "0xa", 30⟩] [] =
      ((100 : Int) : ℚ) / 10 ^ 18 := rfl
  rw [h1, h2]
  norm_num

/-- C3 (amended): the reconstruction compares record fields verbatim against
the lowercased queried address, so any two spellings of the queried address
with the same lowercase form give the same result. -/
theorem reconstruct_address_case_invariance
    (address address' contract symbol : String) (current_balance : Int)
    (token_transfers : List TokenTx) (internal_transfers : List InternalTx)
    (h : pyLower address = pyLower address') :
    reconstruct_balance address contract symbol current_balance
        token_transfers internal_transfers =
      reconstruct_balance address' contract symbol current_balance
        token_transfers internal_transfers := by
  unfold reconstruct_balance reconstruct_loops token_step internal_step
  rw [h]

/-- Concrete instance of the address-case-invariance theorem. -/
theorem reconstruct_address_case_invariance_witness :
    pyLower "0xAbC" = pyLower "0xaBc" ∧
      reconstruct_balance "0xAbC" "0xc" "T" 100 [⟨"T", "0xb", "0xabc", 30⟩] [] =
        reconstruct_balance "0xaBc" "0xc" "T" 100 [⟨"T", "0xb", "0xabc", 30⟩] [] :=
  ⟨by decide,
    reconstruct_address_case_invariance "0xAbC" "0xaBc" "0xc" "T" 100
      [⟨"T", "0xb", "0xabc", 30⟩] [] (by decide)⟩

/-- C3 counterexample: changing only the letter case of a record's `to`
field changes the reconstructed result, because the record side of the
comparison is not lowercase-normalized. -/
theorem reconstruct_record_case_counterexample :
    reconstruct_balance "0xa" "0xc" "T" 100 [⟨"T", "0xb", "0xA", 30⟩] [] ≠
      reconstruct_balance "0xa" "0xc" "T" 100 [⟨"T", "0xb", "0xa", 30⟩] [] := by
  have h1 : reconstruct_balance "0xa" "0xc" "T" 100 [⟨"T", "0xb", "0xA", 30⟩] [] =
      ((100 : Int) : ℚ) / 10 ^ 18 := rfl
  have h2 : reconstruct_balance "0xa" "0xc" "T" 100 [⟨"T", "0xb", "0xa", 30⟩] [] =
      ((70 : Int) : ℚ) / 10 ^ 18 := rfl
  rw [h1, h2]
  norm_num

/-- One CSV row written by `main` (columns of `balances.csv`). -/
structure Row where
  address : String
  blockNumber : String
  balance : ℚ
  tokenTicker : String
  tokenContract : String
  usdValue : ℚ
deriving Repr

/-- The unconditional native-asset row written by `main` for each
(address, block): zero or missing price is replaced by 0 before computing
the USD value. -/
def eth_row (address block_number : String) (eth_balance : ℚ)
    (eth_usd_price : Option ℚ) : Row :=
  ⟨address, block_number, eth_balance, "ETH", "ETH",
    eth_balance * eth_usd_price.getD 0⟩

/-- The ERC-20 rows written by `main` for one (address, block): excluded
contracts are skipped, the reconstructed balance and price are fetched, and
a row is written only when the reconstructed balance is strictly positive
(run.py lines 229-254). -/
def token_rows (address block_number : String) (tokens : List (String × String))
    (exclude_token_contracts : List String) (bal : String → String → ℚ)
    (price : String → Option ℚ) : List Row :=
  tokens.filterMap (fun cs =>
    if cs.1 ∈ exclude_token_contracts then none
    else
      if 0 < bal cs.1 cs.2 then
        some ⟨address, block_number, bal cs.1 cs.2, cs.2, cs.1,
          bal cs.1 cs.2 * (price cs.2).getD 0⟩
      else none)

/-- All rows `main` writes, in iteration order: addresses outer, blocks
inner, the native row followed by the token rows. The balance, discovery
and price collaborators are passed as functions of the loop variables. -/
def main_rows (wallet_addresses block_numbers exclude_token_contracts : List String)
    (eth_bal : String → String → ℚ) (tokens : String → List (String × String))
    (bal : String → String → String → String → ℚ)
    (price : String → String → Option ℚ) : List Row :=
  wallet_addresses.flatMap (fun a =>
    block_numbers.flatMap (fun bn =>
      eth_row a bn (eth_bal a bn) (price "ETH" bn) ::
        token_rows a bn (tokens a) exclude_token_contracts
          (fun c sym => bal a c sym bn) (fun sym => price sym bn)))

/-- Membership in the ERC-20 rows of one (address, block): exactly the
non-excluded discovered tokens with strictly positive reconstructed
balance contribute a row. -/
lemma mem_token_rows (address block_number : String) (tokens : List (String × String))
    (exclude_token_contracts : List String) (bal : String → String → ℚ)
    (price : String → Option ℚ) (r : Row) :
    r ∈ token_rows address block_number tokens exclude_token_contracts bal price ↔
      ∃ cs ∈ tokens, cs.1 ∉ exclude_token_contracts ∧ 0 < bal cs.1 cs.2 ∧
        r = ⟨address, block_number, bal cs.1 cs.2, cs.2, cs.1,
              bal cs.1 cs.2 * (price cs.2).getD 0⟩ := by
  unfold token_rows
  rw [List.mem_filterMap]
  constructor
  · rintro ⟨cs, hcs, hf⟩
    by_cases h1 : cs.1 ∈ exclude_token_contracts
    · rw [if_pos h1] at hf
      cases hf
    · rw [if_neg h1] at hf
      by_cases h2 : 0 < bal cs.1 cs.2
      · rw [if_pos h2] at hf
        exact ⟨cs, hcs, h1, h2, (Option.some.inj hf).symm⟩
      · rw [if_neg h2] at hf
        cases hf
  · rintro ⟨cs, hcs, h1, h2, rfl⟩
    exact ⟨cs, hcs, by simp [h1, h2]⟩

/-- C2: a discovered, non-excluded token yields a row at a given
(address, block) iff its reconstructed balance is strictly positive, and
when the price lookup is unavailable the emitted row's USD value is 0. -/
theorem token_row_emission_iff_positive_balance
    (address block_number c sym : String) (tokens : List (String × String))
    (exclude_token_contracts : List String) (bal : String → String → ℚ)
    (price : String → Option ℚ)
    (hmem : (c, sym) ∈ tokens) (hexc : c ∉ exclude_token_contracts) :
    ((∃ r ∈ token_rows address block_number tokens exclude_token_contracts bal price,
        r.tokenContract = c ∧ r.tokenTicker = sym) ↔ 0 < bal c sym)
    ∧ (price sym = none → 0 < bal c sym →
        ∃ r ∈ token_rows address block_number tokens exclude_token_contracts bal price,
          r.tokenContract = c ∧ r.tokenTicker = sym ∧ r.usdValue = 0) := by
  constructor
  · constructor
    · rintro ⟨r, hr, hc, hs⟩
      rw [mem_token_rows] at hr
      obtain ⟨cs, _, _, hpos, rfl⟩ := hr
      simp only at hc hs
      rwa [hc, hs] at hpos
    · intro hpos
      exact ⟨_, (mem_token_rows _ _ _ _ _ _ _).2 ⟨(c, sym), hmem, hexc, hpos, rfl⟩, rfl, rfl⟩
  · intro hp hpos
    refine ⟨_, (mem_token_rows _ _ _ _ _ _ _).2 ⟨(c, sym), hmem, hexc, hpos, rfl⟩, rfl, rfl, ?_⟩
    simp [hp]

/-- Concrete instance of the row-emission theorem: one non-excluded token
with balance 1 and an unavailable price yields exactly a row with USD
value 0. -/
theorem token_row_emission_iff_positive_balance_witness :
    ((∃ r ∈ token_rows "0xa" "1" [("0xc", "TOK")] [] (fun _ _ => (1 : ℚ))
          (fun _ => (none : Option ℚ)),
        r.tokenContract = "0xc" ∧ r.tokenTicker = "TOK") ↔ (0 : ℚ) < 1)
    ∧ ((none : Option ℚ) = none → (0 : ℚ) < 1 →
        ∃ r ∈ token_rows "0xa" "1" [("0xc", "TOK")] [] (fun _ _ => (1 : ℚ))
            (fun _ => (none : Option ℚ)),
          r.tokenContract = "0xc" ∧ r.tokenTicker = "TOK" ∧ r.usdValue = 0) :=
  token_row_emission_iff_positive_balance "0xa" "1" "0xc" "TOK"
    [("0xc", "TOK")] [] (fun _ _ => 1) (fun _ => none) (by simp) (by simp)

/-- C8 (amended): in the full report the only rows whose Token Contract can
be a member of the exclusion list are the unconditional native-asset rows,
whose Token Contract is the sentinel "ETH"; every ERC-20 row's contract lies
outside the exclusion list. -/
theorem excluded_contracts_only_eth_sentinel
    (wallet_addresses block_numbers exclude_token_contracts : List String)
    (eth_bal : String → String → ℚ) (tokens : String → List (String × String))
    (bal : String → String → String → String → ℚ)
    (price : String → String → Option ℚ) (r : Row)
    (hr : r ∈ main_rows wallet_addresses block_numbers exclude_token_contracts
            eth_bal tokens bal price)
    (hx : r.tokenContract ∈ exclude_token_contracts) :
    r.tokenContract = "ETH" ∧ r.tokenTicker = "ETH" := by
  unfold main_rows at hr
  rw [List.mem_flatMap] at hr
  obtain ⟨a, _, hr⟩ := hr
  rw [List.mem_flatMap] at hr
  obtain ⟨bn, _, hr⟩ := hr
  rcases List.mem_cons.mp hr with h | h
  · subst h
    exact ⟨rfl, rfl⟩
  · rw [mem_token_rows] at h
    obtain ⟨cs, _, h1, _, rfl⟩ := h
    exact absurd hx h1

/-- C8 counterexample: when the sentinel string "ETH" is itself placed in
the configured exclusion list, the native-asset row is still written and
its Token Contract field is a member of the exclusion set. -/
theorem eth_sentinel_excluded_counterexample :
    ∃ r ∈ main_rows ["0xa"] ["1"] ["ETH"] (fun _ _ => 1) (fun _ => [])
        (fun _ _ _ _ => 0) (fun _ _ => none),
      r.tokenContract ∈ ["ETH"] := by
  refine ⟨eth_row "0xa" "1" 1 none, ?_, by simp [eth_row]⟩
  unfold main_rows token_rows
  simp

/-- Concrete instance of the amended exclusion theorem at the run that
writes a row whose contract is in the exclusion list. -/
theorem excluded_contracts_only_eth_sentinel_witness :
    (eth_row "0xa" "1" 1 none).tokenContract = "ETH" ∧
      (eth_row "0xa" "1" 1 none).tokenTicker = "ETH" :=
  excluded_contracts_only_eth_sentinel ["0xa"] ["1"] ["ETH"] (fun _ _ => 1)
    (fun _ => []) (fun _ _ _ _ => 0) (fun _ _ => none) (eth_row "0xa" "1" 1 none)
    (by unfold main_rows token_rows; simp) (by simp [eth_row])

/-- C9: the exclusion test in `main` is exact string membership, so a
discovered contract outside the exclusion list is processed and its row is
emitted (balance permitting) even when the list holds a variant of the
contract that differs only in letter case. -/
theorem exclusion_exact_membership_case_variant_emitted
    (address block_number c sym : String) (tokens : List (String × String))
    (exclude_token_contracts : List String) (bal : String → String → ℚ)
    (price : String → Option ℚ)
    (hmem : (c, sym) ∈ tokens) (hnot : c ∉ exclude_token_contracts)
    (hcase : ∃ e ∈ exclude_token_contracts, e ≠ c ∧ pyLower e = pyLower c)
    (hbal : 0 < bal c sym) :
    ∃ r ∈ token_rows address block_number tokens exclude_token_contracts bal price,
      r.tokenContract = c ∧ r.tokenTicker = sym :=
  ⟨_, (mem_token_rows _ _ _ _ _ _ _).2 ⟨(c, sym), hmem, hnot, hbal, rfl⟩, rfl, rfl⟩

/-- Concrete instance of the case-sensitive exclusion theorem: contract
"0xab" is discovered, the exclusion list holds only "0xAb", and a row for
"0xab" is emitted. -/
theorem exclusion_exact_membership_case_variant_emitted_witness :
    ∃ r ∈ token_rows "0xa" "1" [("0xab", "TOK")] ["0xAb"] (fun _ _ => (1 : ℚ))
        (fun _ => (none : Option ℚ)),
      r.tokenContract = "0xab" ∧ r.tokenTicker = "TOK" :=
  exclusion_exact_membership_case_variant_emitted "0xa" "1" "0xab" "TOK"
    [("0xab", "TOK")] ["0xAb"] (fun _ _ => 1) (fun _ => none)
    (by simp) (by decide) ⟨"0xAb", by simp, by decide, by decide⟩ (by norm_num)

/-- One record of the ascending token-transfer history fetched by
`get_erc20_tokens`; the fold reads only the contract address and symbol,
the block number of the transfer is carried but never consulted. -/
structure DiscoveredTx where
  contractAddress : String
  tokenSymbol : String
  blockNumber : String
deriving DecidableEq, Repr

/-- Python dict assignment `tokens[k] = v` on a string-keyed dict kept as an
insertion-ordered association list. -/
def dict_upsert (m : List (String × String)) (k v : String) : List (String × String) :=
  if m.any (fun p => p.1 == k) then m.map (fun p => if p.1 == k then (k, v) else p)
  else m ++ [(k, v)]

/-- The fold of `get_erc20_tokens` over the fetched transaction list:
`tokens[tx['contractAddress']] = tx['tokenSymbol']` for each record. -/
def discovered_tokens (transactions : List DiscoveredTx) : List (String × String) :=
  transactions.foldl (fun tokens tx => dict_upsert tokens tx.contractAddress tx.tokenSymbol) []

/-- The request parameters built by `get_erc20_tokens`: the block range is
the constant [0, 99999999], independent of any target block height. -/
def tokentx_params (address apikey : String) : List (String × String) :=
  [("module", "account"), ("action", "tokentx"), ("address", address),
   ("startblock", "0"), ("endblock", "99999999"), ("sort", "asc"),
   ("apikey", apikey)]

/-- The token mapping `main` uses in the loop body for a given block height:
`get_erc20_tokens(address)` is called with the wallet address only. -/
def tokens_for_block (disc_resp : String → List DiscoveredTx)
    (address block_number : String) : List (String × String) :=
  discovered_tokens (disc_resp address)

/-- C10: token discovery queries the fixed range [0, 99999999] and depends
only on the address, so the mapping is identical for every block height of
the run; concretely, a token whose only transfer sits at block 500 is still
discovered when reporting block 100 (where the reconstruction-range
responses are empty), and its row is emitted. -/
theorem token_discovery_block_independent :
    (∀ (disc_resp : String → List DiscoveredTx) (address b b' : String),
        tokens_for_block disc_resp address b = tokens_for_block disc_resp address b')
    ∧ (∀ address apikey : String,
        ("startblock", "0") ∈ tokentx_params address apikey ∧
          ("endblock", "99999999") ∈ tokentx_params address apikey)
    ∧ discovered_tokens [⟨"0xc", "TOK", "500"⟩] = [("0xc", "TOK")]
    ∧ (∃ r ∈ token_rows "0xa" "100" (discovered_tokens [⟨"0xc", "TOK", "500"⟩]) []
          (fun c sym => reconstruct_balance "0xa" c sym 5 [] []) (fun _ => none),
        r.tokenContract = "0xc" ∧ r.tokenTicker = "TOK") := by
  refine ⟨fun _ _ _ _ => rfl,
    fun a k => ⟨by simp [tokentx_params], by simp [tokentx_params]⟩, rfl, ?_⟩
  refine ⟨_, (mem_token_rows _ _ _ _ _ _ _).2 ⟨("0xc", "TOK"), by decide, by decide, ?_, rfl⟩,
    rfl, rfl⟩
  have h : reconstruct_balance "0xa" "0xc" "TOK" 5 [] [] = ((5 : Int) : ℚ) / 10 ^ 18 := rfl
  rw [h]
  norm_num

/-- C5: `block_to_date` returns the UTC calendar date of the timestamp in
the explorer response, and when the response carries no timestamp (missing
`result` or missing `timeStamp`) it returns the epoch date 1970-01-01 as a
normal value. -/
theorem block_to_date_timestamp_or_epoch
    (m r : List (String × JVal)) (v : JVal) (t : Int) :
    ((jlookup m "result" = none ∨
        (jlookup m "result" = some (.obj r) ∧ jlookup r "timeStamp" = none)) →
      block_to_date (.obj m) = .ok "1970-01-01")
    ∧ (jlookup m "result" = some (.obj r) → jlookup r "timeStamp" = some v →
        pyInt v = .ok t → 0 ≤ t → t ≤ 253402300799 →
        block_to_date (.obj m) = .ok (dateStrOfTimestamp t)) := by
  have e : block_to_date (.obj m) =
      (do
        let ts ← dictGet ((jlookup m "result").getD (.obj [])) "timeStamp" (.i 0)
        let t ← pyInt ts
        utcDateStr t) := rfl
  have e2 : ∀ rr : List (String × JVal),
      (do
        let ts ← dictGet (.obj rr) "timeStamp" (.i 0)
        let t ← pyInt ts
        utcDateStr t : Except PyErr String) =
      (do
        let t ← pyInt ((jlookup rr "timeStamp").getD (.i 0))
        utcDateStr t) := fun rr => rfl
  constructor
  · rintro (h | ⟨h1, h2⟩)
    · rw [e, h]
      rfl
    · rw [e, h1]
      show (do
        let ts ← dictGet (.obj r) "timeStamp" (.i 0)
        let t ← pyInt ts
        utcDateStr t : Except PyErr String) = _
      rw [e2 r, h2]
      rfl
  · intro h1 h2 h3 h4 h5
    rw [e, h1]
    show (do
      let ts ← dictGet (.obj r) "timeStamp" (.i 0)
      let t ← pyInt ts
      utcDateStr t : Except PyErr String) = _
    rw [e2 r, h2]
    show Except.bind (pyInt v) _ = _
    rw [h3]
    show utcDateStr t = _
    unfold utcDateStr
    rw [if_neg]
    omega

/-- Concrete instances of the date-resolution theorem: a response without a
timestamp yields the epoch date 1970-01-01, and the timestamp of Ethereum
block 1 yields 2015-07-30. -/
theorem block_to_date_timestamp_or_epoch_witness :
    block_to_date (.obj [("result", .obj [("blockNumber", .s "1")])]) = .ok "1970-01-01"
    ∧ block_to_date (.obj [("result", .obj [("timeStamp", .s "1438269988")])]) =
        .ok "2015-07-30" := by
  constructor
  · exact (block_to_date_timestamp_or_epoch [("result", .obj [("blockNumber", .s "1")])]
      [("blockNumber", .s "1")] (.i 0) 0).1 (Or.inr ⟨rfl, rfl⟩)
  · have h := (block_to_date_timestamp_or_epoch
      [("result", .obj [("timeStamp", .s "1438269988")])]
      [("timeStamp", .s "1438269988")] (.s "1438269988") 1438269988).2
      rfl rfl rfl (by norm_num) (by norm_num)
    rw [h]
    rfl

/-- C6: when the JSON-RPC response carries no `result` value (the key is
absent or its value is null), `get_eth_balance` returns balance 0 as a
normal value rather than propagating a failure. -/
theorem get_eth_balance_zero_on_missing_result
    (m : List (String × JVal))
    (h : jlookup m "result" = none ∨ jlookup m "result" = some .null) :
    get_eth_balance (.obj m) = .ok 0 := by
  have e : get_eth_balance (.obj m) =
      (if pyTruthy ((jlookup m "result").getD .null) then do
          let n ← pyIntHex ((jlookup m "result").getD .null)
          pure ((n : ℚ) / 10 ^ 18)
        else pure 0) := rfl
  rcases h with h | h
  · rw [e, h]
    rfl
  · rw [e, h]
    rfl

/-- Concrete instance of the degrade-to-zero theorem at an empty response. -/
theorem get_eth_balance_zero_on_missing_result_witness :
    get_eth_balance (.obj []) = .ok 0 :=
  get_eth_balance_zero_on_missing_result [] (Or.inl rfl)

/-- Python `v == t` where `t` is a string: false rather than an error when
`v` is not a string. -/
def pyEqStr (v : JVal) (t : String) : Bool :=
  match v with
  | .s u => u == t
  | _ => false

/-- Python `k in v`: key test on dicts, element test on lists, substring
test on strings; other values raise TypeError. -/
def pyContains (v : JVal) (k : String) : Except PyErr Bool :=
  match v with
  | .obj m => .ok (m.any (fun p => p.1 == k))
  | .arr l => .ok (l.any (fun x => pyEqStr x k))
  | .s st => .ok ((List.range (st.toList.length + 1)).any
      (fun idx => ((st.toList.drop idx).take k.toList.length) == k.toList))
  | _ => .error .typeError

/-- `reconstruct_erc20_balance` from run.py applied to the three parsed
responses it fetches (current token balance, token transfers up to the
target block, internal transactions up to the target block), including the
Python parsing and exception behavior on each record. -/
def reconstruct_erc20_balance (address contract symbol : String)
    (balance_resp token_tx_resp internal_tx_resp : JVal) : Except PyErr ℚ := do
  let r ← dictGet balance_resp "result" (.s "0")
  let current_balance ← pyInt r
  let tr ← dictGet token_tx_resp "result" (.arr [])
  let token_transfers ← iterElems tr
  let bal1 ← token_transfers.foldlM (fun (b : Int) tx => do
    let sym ← jIndexStr tx "tokenSymbol"
    if pyEqStr sym symbol then
      let toV ← jIndexStr tx "to"
      if pyEqStr toV (pyLower address) then
        let v ← jIndexStr tx "value"
        let n ← pyInt v
        pure (b - n)
      else
        let frV ← jIndexStr tx "from"
        if pyEqStr frV (pyLower address) then
          let v ← jIndexStr tx "value"
          let n ← pyInt v
          pure (b + n)
        else
          pure b
    else
      pure b) current_balance
  let ir ← dictGet internal_tx_resp "result" (.arr [])
  let internal_transfers ← iterElems ir
  let bal2 ← internal_transfers.foldlM (fun (b : Int) tx => do
    let hasCA ← pyContains tx "contractAddress"
    if hasCA then
      let ca ← jIndexStr tx "contractAddress"
      if pyEqStr ca contract then
        let ty ← jIndexStr tx "type"
        if pyEqStr ty "call" then
          let toV ← jIndexStr tx "to"
          if pyEqStr toV (pyLower address) then
            let v ← jIndexStr tx "value"
            let n ← pyInt v
            pure (b - n)
          else
            let frV ← jIndexStr tx "from"
            if pyEqStr frV (pyLower address) then
              let v ← jIndexStr tx "value"
              let n ← pyInt v
              pure (b + n)
            else
              pure b
        else
          pure b
      else
        pure b
    else
      pure b) bal1
  pure ((bal2 : ℚ) / 10 ^ 18)

/-- Equality of the JSON scalars Python accepts as dict keys. -/
def jscalarEq (a c : JVal) : Bool :=
  match a, c with
  | .null, .null => true
  | .b x, .b y => x == y
  | .i x, .i y => x == y
  | .s x, .s y => x == y
  | _, _ => false

/-- A JSON value used as a Python dict key: lists and dicts are unhashable
and raise. -/
def jhashable (k : JVal) : Except PyErr JVal :=
  match k with
  | .arr _ => .error .typeError
  | .obj _ => .error .typeError
  | _ => .ok k

/-- Python dict assignment `tokens[k] = v` on a JSON-keyed dict kept as an
insertion-ordered association list. -/
def jdict_upsert (m : List (JVal × JVal)) (k v : JVal) : List (JVal × JVal) :=
  if m.any (fun p => jscalarEq p.1 k) then
    m.map (fun p => if jscalarEq p.1 k then (k, v) else p)
  else m ++ [(k, v)]

/-- `get_erc20_tokens` from run.py applied to the HTTP status code and the
parsed explorer response: a non-200 status yields the empty mapping, and
each listed transaction upserts contractAddress → tokenSymbol. -/
def get_erc20_tokens (status_code : Nat) (resp : JVal) :
    Except PyErr (List (JVal × JVal)) :=
  if status_code == 200 then do
    let tr ← dictGet resp "result" (.arr [])
    let transactions ← iterElems tr
    transactions.foldlM (fun tokens tx => do
      let sym ← jIndexStr tx "tokenSymbol"
      let ca ← jIndexStr tx "contractAddress"
      let caK ← jhashable ca
      pure (jdict_upsert tokens caK sym)) []
  else
    pure []

/-- Python `v[0]` on a parsed JSON value. -/
def pyIndexZero (v : JVal) : Except PyErr JVal :=
  match v with
  | .arr (x :: _) => .ok x
  | .arr [] => .error .indexError
  | .s st =>
    match st.toList with
    | c :: _ => .ok (.s c.toString)
    | [] => .error .indexError
  | .obj _ => .error .keyError
  | _ => .error .typeError

/-- `get_token_price_on_date_cryptocompare` from run.py applied to the HTTP
status code and the parsed price response; the Python `None` result is
modelled as the JSON null value. -/
def get_token_price_on_date_cryptocompare (status_code : Nat) (resp : JVal) :
    Except PyErr JVal :=
  if status_code == 200 then do
    let d1 ← dictGet resp "Data" (.obj [])
    let data ← dictGet d1 "Data" (.arr [])
    if pyTruthy data then do
      let e ← pyIndexZero data
      dictGetOpt e "close"
    else
      pure .null
  else
    pure .null

/-- `d.get(k, default)` yields the default whenever the key is absent. -/
lemma dictGet_absent (m : List (String × JVal)) (k : String) (d : JVal)
    (h : jlookup m k = none) : dictGet (.obj m) k d = .ok d := by
  have e : dictGet (.obj m) k d = .ok ((jlookup m k).getD d) := rfl
  rw [e, h]
  rfl

/-- C4 (amended): per-call failures in which the expected field is absent
from the response object, and non-200 statuses where the code checks the
status (token discovery, price lookup), are absorbed by every fetch
operation and converted to its neutral default: epoch date, zero native
balance, empty token mapping, zero reconstructed balance, null price.
Responses whose expected field is present but of an unexpected type (an
error string, a null result) are outside this guarantee and can raise. -/
theorem fetches_absorb_missing_fields
    (address contract symbol : String) (status : Nat)
    (m m1 m2 m3 mp : List (String × JVal)) (resp : JVal)
    (h : jlookup m "result" = none)
    (h1 : jlookup m1 "result" = none) (h2 : jlookup m2 "result" = none)
    (h3 : jlookup m3 "result" = none)
    (hp : jlookup mp "Data" = none) (hs : status ≠ 200) :
    block_to_date (.obj m) = .ok "1970-01-01"
    ∧ get_eth_balance (.obj m) = .ok 0
    ∧ get_erc20_tokens 200 (.obj m) = .ok []
    ∧ get_erc20_tokens status resp = .ok []
    ∧ reconstruct_erc20_balance address contract symbol
        (.obj m1) (.obj m2) (.obj m3) = .ok 0
    ∧ get_token_price_on_date_cryptocompare 200 (.obj mp) = .ok .null
    ∧ get_token_price_on_date_cryptocompare status resp = .ok .null := by
  refine ⟨?_, ?_, ?_, ?_, ?_, ?_, ?_⟩
  · unfold block_to_date
    rw [dictGet_absent m "result" (.obj []) h]
    rfl
  · unfold get_eth_balance dictGetOpt
    rw [dictGet_absent m "result" .null h]
    rfl
  · unfold get_erc20_tokens
    rw [dictGet_absent m "result" (.arr []) h]
    rfl
  · unfold get_erc20_tokens
    split
    · next hc => exact absurd (by simpa using hc) hs
    · rfl
  · have key : reconstruct_erc20_balance address contract symbol
        (.obj m1) (.obj m2) (.obj m3) =
        reconstruct_erc20_balance address contract symbol
          (.obj []) (.obj []) (.obj []) := by
      unfold reconstruct_erc20_balance
      rw [dictGet_absent m1 "result" (.s "0") h1,
        dictGet_absent m2 "result" (.arr []) h2,
        dictGet_absent m3 "result" (.arr []) h3]
      rfl
    rw [key]
    have e : reconstruct_erc20_balance address contract symbol
        (.obj []) (.obj []) (.obj []) = .ok (((0 : Int) : ℚ) / 10 ^ 18) := rfl
    rw [e]
    norm_num
  · unfold get_token_price_on_date_cryptocompare
    rw [dictGet_absent mp "Data" (.obj []) hp]
    rfl
  · unfold get_token_price_on_date_cryptocompare
    split
    · next hc => exact absurd (by simpa using hc) hs
    · rfl

/-- Concrete instance of the absorption theorem: an explorer error payload
without a `result` field, and a 403 status, are absorbed by every fetch. -/
theorem fetches_absorb_missing_fields_witness :
    block_to_date (.obj [("status", .s "0"), ("message", .s "NOTOK")]) = .ok "1970-01-01"
    ∧ get_eth_balance (.obj [("status", .s "0"), ("message", .s "NOTOK")]) = .ok 0
    ∧ get_erc20_tokens 200 (.obj [("status", .s "0"), ("message", .s "NOTOK")]) = .ok []
    ∧ get_erc20_tokens 403 (.s "Forbidden") = .ok []
    ∧ reconstruct_erc20_balance "0xa" "0xc" "T"
        (.obj [("status", .s "0"), ("message", .s "NOTOK")])
        (.obj [("status", .s "0"), ("message", .s "NOTOK")])
        (.obj [("status", .s "0"), ("message", .s "NOTOK")]) = .ok 0
    ∧ get_token_price_on_date_cryptocompare 200
        (.obj [("status", .s "0"), ("message", .s "NOTOK")]) = .ok .null
    ∧ get_token_price_on_date_cryptocompare 403 (.s "Forbidden") = .ok .null :=
  fetches_absorb_missing_fields "0xa" "0xc" "T" 403
    [("status", .s "0"), ("message", .s "NOTOK")]
    [("status", .s "0"), ("message", .s "NOTOK")]
    [("status", .s "0"), ("message", .s "NOTOK")]
    [("status", .s "0"), ("message", .s "NOTOK")]
    [("status", .s "0"), ("message", .s "NOTOK")]
    (.s "Forbidden") rfl rfl rfl rfl rfl (by decide)

/-- C4 counterexample: a syntactically well-formed explorer error payload
(`result` is the string "Max rate limit reached") makes `block_to_date`
raise AttributeError and `reconstruct_erc20_balance` raise ValueError
instead of returning a value. -/
theorem error_payload_raises_counterexample :
    block_to_date (.obj [("status", .s "0"), ("message", .s "NOTOK"),
        ("result", .s "Max rate limit reached")]) = .error .attributeError
    ∧ reconstruct_erc20_balance "0xa" "0xc" "T"
        (.obj [("status", .s "0"), ("message", .s "NOTOK"),
          ("result", .s "Max rate limit reached")]) (.obj []) (.obj []) =
        .error .valueError :=
  ⟨rfl, rfl⟩
